import Mathlib

/-!
Shallow embedding of the Nakama Javascript runtime provider
(`runtime_javascript.go`): the bounded pool of goja interpreter
instances, the hook dispatchers (`Rpc`, `BeforeRt`, `BeforeReq`), the
callback registry lookup, and the module cache.

Machine-integer note: `currentCount` is a `uint32` in the source; it is
modelled as `Nat` because it only ever increases by one per `Get`
attempt, so wrap-around is unreachable in any history shorter than
`2 ^ 32` steps and plays no role in the pool protocol.
-/

/-- The gRPC status codes that appear on the dispatcher paths
(`codes.OK`, `codes.Internal`, `codes.NotFound`). -/
inductive Code where
  | ok
  | internal
  | notFound
  deriving DecidableEq, Repr

/-- A goja value as seen after the script call returns. A JS string
exports to a Go `string`; every other shape exports to a non-string Go
value, modelled abstractly (`obj` carries an opaque handle). -/
inductive JsValue where
  | str (s : String)
  | num (n : Int)
  | boolean (b : Bool)
  | obj (id : Nat)
  deriving DecidableEq, Repr

/-- The Go type assertion `retValue.Export().(string)`: it succeeds
exactly when the goja value is a JS string. -/
def JsValue.exportString : JsValue → Option String
  | .str s => some s
  | _ => none

/-- `jsError` values as produced by `newJsExceptionError` (uncaught
script exception, carrying a stack trace) and `newJsError` (any other
engine-level error). -/
inductive JsError where
  | exception (msg st : String)
  | runtimeError (msg : String)
  deriving DecidableEq, Repr

/-- Outcome of the raw call `fn(goja.Null(), jv...)` inside
`InvokeFunction`: either a `*goja.Exception`, another engine error, or a
return value, where `returns none` stands for a Go-nil /
`goja.Undefined()` / `goja.Null()` result. -/
inductive CallOutcome where
  | exception (msg st : String)
  | otherErr (msg : String)
  | returns (v : Option JsValue)
  deriving DecidableEq, Repr

/-- Modelled from the spec: the `RuntimeExecutionMode` enumeration is
declared outside this source file; the spec lists the modes `RPC`,
`Before`, `After` plus the reserved modes `Matchmaker`, `TournamentEnd`,
`TournamentReset`, `LeaderboardReset`. -/
inductive RuntimeExecutionMode where
  | rpc
  | before
  | after
  | matchmaker
  | tournamentEnd
  | tournamentReset
  | leaderboardReset
  deriving DecidableEq, Repr

/-- goja callables are opaque to the host; identify them by handle. -/
abbrev Callable := Nat

/-- `RuntimeJavascriptCallbacks`: the three hook tables. A Go map read
of a missing key yields the zero value `nil`, hence `Option`. -/
structure RuntimeJavascriptCallbacks where
  Rpc : String → Option Callable
  Before : String → Option Callable
  After : String → Option Callable

/-- `RuntimeJS.GetCallback` (lines 47-66): the reserved modes have their
bodies commented out, so the switch falls through to `return nil`. -/
def RuntimeJS.GetCallback (callbacks : RuntimeJavascriptCallbacks)
    (e : RuntimeExecutionMode) (key : String) : Option Callable :=
  match e with
  | .rpc => callbacks.Rpc key
  | .before => callbacks.Before key
  | .after => callbacks.After key
  | .matchmaker => none
  | .tournamentEnd => none
  | .tournamentReset => none
  | .leaderboardReset => none

/-- `RuntimeJS.InvokeFunction` (lines 395-419), the part that classifies
the outcome of the script call: a `*goja.Exception` becomes a `jsError`
of exception type with status Internal; any other call error becomes a
runtime `jsError` with status Internal; a nil/undefined/null return
becomes `(nil, nil, OK)`; any other value is returned with status OK. -/
def RuntimeJS.InvokeFunction (outcome : CallOutcome) :
    Option JsValue × Option JsError × Code :=
  match outcome with
  | .exception m st => (none, some (.exception m st), .internal)
  | .otherErr m => (none, some (.runtimeError m), .internal)
  | .returns none => (none, none, .ok)
  | .returns (some v) => (some v, none, .ok)

/-- Program counter of one in-flight `RuntimeProviderJS.Get` call
(lines 421-452): `start` is the first `select`; `checking` is about to
read `currentCount.Load()`; `incr` is about to run `currentCount.Inc()`
and test the post-increment value; `waiting` is the final blocking
`select`; `gotIdle`/`gotNew` hold the returned instance; `cancelled`
returned `ctx.Err()`; `released` has given its instance to `Put`. -/
inductive GetPC where
  | start
  | checking
  | incr
  | waiting
  | gotIdle (i : Nat)
  | gotNew (i : Nat)
  | cancelled
  | released
  deriving DecidableEq, Repr

/-- One caller of `Get`, together with whether its context is done. -/
structure GetThread where
  pc : GetPC
  ctxDone : Bool
  deriving DecidableEq, Repr

/-- The instance a thread currently holds, if any. -/
def GetPC.heldInst : GetPC → Option Nat
  | .gotIdle i => some i
  | .gotNew i => some i
  | _ => none

/-- Pool-relevant state of a `RuntimeProviderJS`: the buffered channel
`poolCh` (capacity `maxCount`) as a FIFO list of instance handles, the
atomic `currentCount`, a supply of fresh handles standing for `newFn`
calls, and the in-flight `Get` callers. -/
structure PoolState where
  maxCount : Nat
  counter : Nat
  idle : List Nat
  nextInst : Nat
  threads : List GetThread

/-- `RuntimeProviderJS.Put` (lines 454-463): a non-blocking send on the
buffered channel; when the buffer is full the instance is discarded
(with a warning) and nothing else changes. -/
def RuntimeProviderJS.Put (maxCount : Nat) (idle : List Nat) (r : Nat) :
    List Nat :=
  if idle.length < maxCount then idle ++ [r] else idle

/-- `Put` acting on the whole pool state: only the idle queue can
change. -/
def PoolState.put (c : PoolState) (r : Nat) : PoolState :=
  { c with idle := RuntimeProviderJS.Put c.maxCount c.idle r }

/-- Fine-grained interleaving semantics of `RuntimeProviderJS.Get`
(lines 421-452) together with `Put` (lines 454-463) and context
cancellation. `Step t c c'` is one atomic action taken by (or on behalf
of) thread `t`. The first `select` may take an idle instance or the
cancellation branch whenever they are ready (Go picks among ready cases
nondeterministically); its `default` branch fires only when neither is
ready. The `Load` of the counter, its `Inc` together with the test of
the returned post-increment value, and the construction by `newFn`
(which touches no shared pool state and is fused with the successful
post-increment test) are separate atomic actions, so other threads may
interleave between them. -/
inductive Step : Nat → PoolState → PoolState → Prop
  | spawn (c : PoolState) :
      Step c.threads.length c
        { c with threads := c.threads ++ [⟨.start, false⟩] }
  | cancelCtx (t : Nat) (c : PoolState) (pc : GetPC)
      (h : c.threads.get? t = some ⟨pc, false⟩) :
      Step t c { c with threads := c.threads.set t ⟨pc, true⟩ }
  | startIdle (t : Nat) (c : PoolState) (d : Bool) (i : Nat)
      (rest : List Nat) (h : c.threads.get? t = some ⟨.start, d⟩)
      (hq : c.idle = i :: rest) :
      Step t c
        { c with idle := rest, threads := c.threads.set t ⟨.gotIdle i, d⟩ }
  | startCancel (t : Nat) (c : PoolState)
      (h : c.threads.get? t = some ⟨.start, true⟩) :
      Step t c { c with threads := c.threads.set t ⟨.cancelled, true⟩ }
  | startDefault (t : Nat) (c : PoolState)
      (h : c.threads.get? t = some ⟨.start, false⟩) (hq : c.idle = []) :
      Step t c { c with threads := c.threads.set t ⟨.checking, false⟩ }
  | checkFull (t : Nat) (c : PoolState) (d : Bool)
      (h : c.threads.get? t = some ⟨.checking, d⟩)
      (hcnt : c.maxCount ≤ c.counter) :
      Step t c { c with threads := c.threads.set t ⟨.waiting, d⟩ }
  | checkAvail (t : Nat) (c : PoolState) (d : Bool)
      (h : c.threads.get? t = some ⟨.checking, d⟩)
      (hcnt : c.counter < c.maxCount) :
      Step t c { c with threads := c.threads.set t ⟨.incr, d⟩ }
  | incOk (t : Nat) (c : PoolState) (d : Bool)
      (h : c.threads.get? t = some ⟨.incr, d⟩)
      (hcnt : c.counter + 1 ≤ c.maxCount) :
      Step t c
        { c with counter := c.counter + 1, nextInst := c.nextInst + 1,
                 threads := c.threads.set t ⟨.gotNew c.nextInst, d⟩ }
  | incFail (t : Nat) (c : PoolState) (d : Bool)
      (h : c.threads.get? t = some ⟨.incr, d⟩)
      (hcnt : c.maxCount < c.counter + 1) :
      Step t c
        { c with counter := c.counter + 1,
                 threads := c.threads.set t ⟨.waiting, d⟩ }
  | waitIdle (t : Nat) (c : PoolState) (d : Bool) (i : Nat)
      (rest : List Nat) (h : c.threads.get? t = some ⟨.waiting, d⟩)
      (hq : c.idle = i :: rest) :
      Step t c
        { c with idle := rest, threads := c.threads.set t ⟨.gotIdle i, d⟩ }
  | waitCancel (t : Nat) (c : PoolState)
      (h : c.threads.get? t = some ⟨.waiting, true⟩) :
      Step t c { c with threads := c.threads.set t ⟨.cancelled, true⟩ }
  | putRet (t : Nat) (c : PoolState) (pc : GetPC) (d : Bool) (i : Nat)
      (h : c.threads.get? t = some ⟨pc, d⟩) (hi : pc.heldInst = some i) :
      Step t c
        { c with idle := RuntimeProviderJS.Put c.maxCount c.idle i,
                 threads := c.threads.set t ⟨.released, d⟩ }

/-- A realtime protocol envelope (`*rtapi.Envelope`), opaque to the
bridge. -/
structure Envelope where
  raw : Nat
  deriving DecidableEq, Repr

/-- A typed protocol message (`proto.Message`), opaque to the bridge. -/
structure ProtoMsg where
  raw : Nat
  deriving DecidableEq, Repr

/-- The `interface{}` request argument of `BeforeReq`: either a value
that type-asserts to `proto.Message`, or one that does not. -/
inductive ReqArg where
  | protoMsg (p : ProtoMsg)
  | notProto
  deriving DecidableEq, Repr

/-- The marshaling collaborators used by the dispatchers:
`jsonpbMarshaler.MarshalToString`, `json.Unmarshal` into
`map[string]interface{}`, `json.Marshal` of the script result, and
`jsonpbUnmarshaler.Unmarshal` over an existing message (which mutates it
in place; modelled as returning the overwritten message). -/
structure Bridge where
  marshalEnv : Envelope → Except String String
  marshalReq : ProtoMsg → Except String String
  jsonUnmarshal : String → Except String JsValue
  jsonMarshal : JsValue → Except String String
  unmarshalEnv : String → Envelope → Except String Envelope
  unmarshalReq : String → ProtoMsg → Except String ProtoMsg

/-- The error outcomes of `RuntimeProviderJS.Rpc`. -/
inductive RpcError where
  | getFailed (msg : String)
  | rpcNotFound
  | invokeFailed (e : JsError)
  | invalidReturn
  deriving DecidableEq, Repr

/-- A Go runtime panic on the dispatcher path. -/
inductive GoPanic where
  | nilValueExport
  deriving DecidableEq, Repr

/-- `RuntimeProviderJS.Rpc` (lines 156-178). The acquisition result and
the script-call outcome are inputs; the pool state is threaded
explicitly so each `rp.Put(r)` call is visible. Note that the source
calls `rp.Put(r)` only on the callback-not-found branch, and that it
calls `retValue.Export()` without a nil check, which panics when
`InvokeFunction` returned a nil value (script returned
undefined/null). -/
def RuntimeProviderJS.Rpc (pool : PoolState) (acq : Except String Nat)
    (callbacks : RuntimeJavascriptCallbacks) (id : String)
    (outcome : CallOutcome) :
    Except GoPanic ((String × Option RpcError × Code) × PoolState) :=
  match acq with
  | .error m => .ok (("", some (.getFailed m), .internal), pool)
  | .ok r =>
    match RuntimeJS.GetCallback callbacks .rpc id with
    | none => .ok (("", some .rpcNotFound, .notFound), pool.put r)
    | some _ =>
      match RuntimeJS.InvokeFunction outcome with
      | (_, some e, code) => .ok (("", some (.invokeFailed e), code), pool)
      | (retValue, none, code) =>
        match retValue with
        | none => .error .nilValueExport
        | some v =>
          match v.exportString with
          | none => .ok (("", some .invalidReturn, .internal), pool)
          | some payload => .ok ((payload, none, code), pool)

/-- The error outcomes of `RuntimeProviderJS.BeforeRt`. -/
inductive BeforeRtError where
  | getFailed (msg : String)
  | notFound
  | runFailed
  | invokeFailed (e : JsError)
  | completeFailed
  deriving DecidableEq, Repr

/-- `RuntimeProviderJS.BeforeRt` (lines 180-228). The envelope is
marshalled to wire JSON and parsed into a generic map before the call;
after a successful call, a nil result returns `(nil, nil)` while a
non-nil result is serialized with `json.Marshal` and unmarshalled back
over the original envelope, which is then returned. `rp.Put(r)` runs
right after `InvokeFunction`, before any of the result handling. -/
def RuntimeProviderJS.BeforeRt (b : Bridge) (pool : PoolState)
    (acq : Except String Nat) (callbacks : RuntimeJavascriptCallbacks)
    (id : String) (envelope : Envelope) (outcome : CallOutcome) :
    (Option Envelope × Option BeforeRtError) × PoolState :=
  match acq with
  | .error m => ((none, some (.getFailed m)), pool)
  | .ok r =>
    match RuntimeJS.GetCallback callbacks .before id with
    | none => ((none, some .notFound), pool.put r)
    | some _ =>
      match b.marshalEnv envelope with
      | .error _ => ((none, some .runFailed), pool.put r)
      | .ok envelopeJSON =>
        match b.jsonUnmarshal envelopeJSON with
        | .error _ => ((none, some .runFailed), pool.put r)
        | .ok _envelopeMap =>
          match RuntimeJS.InvokeFunction outcome with
          | (result, fnErr, _) =>
            let pool' := pool.put r
            match fnErr with
            | some e => ((none, some (.invokeFailed e)), pool')
            | none =>
              match result with
              | none => ((none, none), pool')
              | some res =>
                match b.jsonMarshal res with
                | .error _ => ((none, some .completeFailed), pool')
                | .ok resultJSON =>
                  match b.unmarshalEnv resultJSON envelope with
                  | .error _ => ((none, some .completeFailed), pool')
                  | .ok envelope' => ((some envelope', none), pool')

/-- The error outcomes of `RuntimeProviderJS.BeforeReq`. -/
inductive BeforeReqError where
  | getFailed (msg : String)
  | notFound
  | runFailed
  | invokeFailed (e : JsError)
  | completeFailed
  deriving DecidableEq, Repr

/-- The part of `RuntimeProviderJS.BeforeReq` from the `InvokeFunction`
call onwards (lines 300-324). `reqData` carries `reqMap` and `reqProto`,
which the source sets together (both nil exactly when `req` was nil). -/
def RuntimeProviderJS.BeforeReqInvoke (b : Bridge) (pool : PoolState)
    (r : Nat) (reqData : Option (JsValue × ProtoMsg))
    (outcome : CallOutcome) :
    (Option ReqArg × Option BeforeReqError × Code) × PoolState :=
  match RuntimeJS.InvokeFunction outcome with
  | (result, fnErr, code) =>
    let pool' := pool.put r
    match fnErr with
    | some e => ((none, some (.invokeFailed e), code), pool')
    | none =>
      match result, reqData with
      | none, _ => ((none, none, .ok), pool')
      | _, none => ((none, none, .ok), pool')
      | some res, some (_, reqProto) =>
        match b.jsonMarshal res with
        | .error _ => ((none, some .completeFailed, .internal), pool')
        | .ok resultJSON =>
          match b.unmarshalReq resultJSON reqProto with
          | .error _ => ((none, some .completeFailed, .internal), pool')
          | .ok reqProto' => ((some (.protoMsg reqProto'), none, .ok), pool')

/-- `RuntimeProviderJS.BeforeReq` (lines 265-325). When `req` is non-nil
it must type-assert to `proto.Message` and marshal to a generic map;
when `req` is nil both `reqMap` and `reqProto` stay nil and, after a
successful call, the `result == nil || reqMap == nil` test short-cuts to
`(nil, nil, codes.OK)` with no return-value projection. -/
def RuntimeProviderJS.BeforeReq (b : Bridge) (pool : PoolState)
    (acq : Except String Nat) (callbacks : RuntimeJavascriptCallbacks)
    (id : String) (req : Option ReqArg) (outcome : CallOutcome) :
    (Option ReqArg × Option BeforeReqError × Code) × PoolState :=
  match acq with
  | .error m => ((none, some (.getFailed m), .internal), pool)
  | .ok r =>
    match RuntimeJS.GetCallback callbacks .before id with
    | none => ((none, some .notFound, .notFound), pool.put r)
    | some _ =>
      match req with
      | none => RuntimeProviderJS.BeforeReqInvoke b pool r none outcome
      | some .notProto => ((none, some .runFailed, .internal), pool.put r)
      | some (.protoMsg reqProto) =>
        match b.marshalReq reqProto with
        | .error _ => ((none, some .runFailed, .internal), pool.put r)
        | .ok reqJSON =>
          match b.jsonUnmarshal reqJSON with
          | .error _ => ((none, some .runFailed, .internal), pool.put r)
          | .ok reqMap =>
            RuntimeProviderJS.BeforeReqInvoke b pool r
              (some (reqMap, reqProto)) outcome

/-- Claim C9: `GetCallback` yields `nil` for every reserved mode
(`Matchmaker`, `TournamentEnd`, `TournamentReset`, `LeaderboardReset`)
and is exactly the corresponding table lookup for `RPC`, `Before` and
`After`. -/
theorem claim_C9_getCallback (callbacks : RuntimeJavascriptCallbacks)
    (key : String) :
    RuntimeJS.GetCallback callbacks .matchmaker key = none ∧
    RuntimeJS.GetCallback callbacks .tournamentEnd key = none ∧
    RuntimeJS.GetCallback callbacks .tournamentReset key = none ∧
    RuntimeJS.GetCallback callbacks .leaderboardReset key = none ∧
    RuntimeJS.GetCallback callbacks .rpc key = callbacks.Rpc key ∧
    RuntimeJS.GetCallback callbacks .before key = callbacks.Before key ∧
    RuntimeJS.GetCallback callbacks .after key = callbacks.After key :=
  ⟨rfl, rfl, rfl, rfl, rfl, rfl, rfl⟩

/-- A registry with one RPC and one Before hook under the id "testid",
used by concrete witnesses. -/
def testCallbacks : RuntimeJavascriptCallbacks where
  Rpc := fun k => if k = "testid" then some 1 else none
  Before := fun k => if k = "testid" then some 2 else none
  After := fun _ => none

/-- A bridge whose marshaling collaborators always succeed, used by
concrete witnesses. -/
def testBridge : Bridge where
  marshalEnv := fun _ => .ok "envelope-json"
  marshalReq := fun _ => .ok "request-json"
  jsonUnmarshal := fun _ => .ok (.obj 0)
  jsonMarshal := fun _ => .ok "result-json"
  unmarshalEnv := fun _ e => .ok ⟨e.raw + 1⟩
  unmarshalReq := fun _ p => .ok ⟨p.raw + 1⟩

/-- A pool of capacity 4 with one instance (handle 0) checked out and
none idle. -/
def testPool : PoolState where
  maxCount := 4
  counter := 1
  idle := []
  nextInst := 1
  threads := []

/-- Claim C2 (code bug): on an uncaught script exception the RPC
dispatcher does report an internal-status error, but — unlike
`BeforeRt`, which calls `rp.Put(r)` right after `InvokeFunction` — the
source of `Rpc` returns without ever calling `rp.Put(r)` once the
callback lookup has succeeded: the pool state comes back unchanged and
the acquired instance 0 is never returned to the idle queue, on the
error outcome and on the success outcome alike. -/
theorem claim_C2_rpc_never_puts :
    RuntimeProviderJS.Rpc testPool (.ok 0) testCallbacks "testid"
        (.exception "boom" "stacktrace")
      = .ok (("", some (.invokeFailed (.exception "boom" "stacktrace")),
              .internal), testPool) ∧
    testPool.idle = [] ∧
    (RuntimeProviderJS.BeforeRt testBridge testPool (.ok 0) testCallbacks
        "testid" ⟨5⟩ (.exception "boom" "stacktrace")).2.idle = [0] ∧
    RuntimeProviderJS.Rpc testPool (.ok 0) testCallbacks "testid"
        (.returns (some (.str "ok")))
      = .ok (("ok", none, .ok), testPool) :=
  ⟨rfl, rfl, rfl, rfl⟩

/-- Claim C3 (code bug): RPC dispatch with an unregistered id returns
the not-found error with a not-found code, and a registered callback
returning a non-string value yields an internal-status error; but when
the callback returns undefined/null, `InvokeFunction` yields a nil
`goja.Value` and `Rpc` calls `retValue.Export()` on it without a nil
check, which panics instead of producing the internal-status error the
claim describes. -/
theorem claim_C3_rpc_return_shapes :
    RuntimeProviderJS.Rpc testPool (.ok 0) testCallbacks "missing"
        (.returns (some (.str "x")))
      = .ok (("", some .rpcNotFound, .notFound), testPool.put 0) ∧
    RuntimeProviderJS.Rpc testPool (.ok 0) testCallbacks "testid"
        (.returns (some (.num 3)))
      = .ok (("", some .invalidReturn, .internal), testPool) ∧
    RuntimeProviderJS.Rpc testPool (.ok 0) testCallbacks "testid"
        (.returns none)
      = .error .nilValueExport :=
  ⟨rfl, rfl, rfl⟩

/-- Claim C4: a realtime Before hook that completes without error
either returns nothing — then `BeforeRt` returns a nil envelope and nil
error (drop the message) — or returns a value, which is serialized with
`json.Marshal` and unmarshalled back over the original envelope, and
that overwritten envelope is returned. The instance is put back in both
cases. -/
theorem claim_C4_beforeRt (b : Bridge) (pool : PoolState) (r : Nat)
    (callbacks : RuntimeJavascriptCallbacks) (id : String)
    (envelope : Envelope) (f : Callable) (s : String) (m : JsValue)
    (hcb : callbacks.Before id = some f)
    (hm : b.marshalEnv envelope = .ok s)
    (hu : b.jsonUnmarshal s = .ok m) :
    (RuntimeProviderJS.BeforeRt b pool (.ok r) callbacks id envelope
        (.returns none) = ((none, none), pool.put r)) ∧
    (∀ (v : JsValue) (rj : String) (envelope' : Envelope),
      b.jsonMarshal v = .ok rj →
      b.unmarshalEnv rj envelope = .ok envelope' →
      RuntimeProviderJS.BeforeRt b pool (.ok r) callbacks id envelope
          (.returns (some v)) = ((some envelope', none), pool.put r)) := by
  constructor
  · simp [RuntimeProviderJS.BeforeRt, RuntimeJS.GetCallback, hcb, hm, hu,
      RuntimeJS.InvokeFunction]
  · intro v rj envelope' h1 h2
    simp [RuntimeProviderJS.BeforeRt, RuntimeJS.GetCallback, hcb, hm, hu,
      RuntimeJS.InvokeFunction, h1, h2]

/-- Witness for C4 at concrete inputs: the drop case and the overwrite
case. -/
theorem claim_C4_beforeRt_witness :
    (RuntimeProviderJS.BeforeRt testBridge testPool (.ok 0) testCallbacks
        "testid" ⟨5⟩ (.returns none) = ((none, none), testPool.put 0)) ∧
    (RuntimeProviderJS.BeforeRt testBridge testPool (.ok 0) testCallbacks
        "testid" ⟨5⟩ (.returns (some (.boolean true)))
      = ((some ⟨6⟩, none), testPool.put 0)) := by
  have h := claim_C4_beforeRt testBridge testPool 0 testCallbacks "testid"
    ⟨5⟩ 2 "envelope-json" (.obj 0) (by decide) rfl rfl
  exact ⟨h.1, h.2 (.boolean true) "result-json" ⟨6⟩ rfl rfl⟩

/-- Claim C5: a typed-request Before hook invoked with a nil request
performs no return-value projection: whenever the script call itself
completes (with or without a return value), `BeforeReq` returns a nil
result, nil error and `codes.OK`, and returns the instance. -/
theorem claim_C5_beforeReq_nilReq (b : Bridge) (pool : PoolState)
    (r : Nat) (callbacks : RuntimeJavascriptCallbacks) (id : String)
    (f : Callable) (v : Option JsValue)
    (hcb : callbacks.Before id = some f) :
    RuntimeProviderJS.BeforeReq b pool (.ok r) callbacks id none
        (.returns v) = ((none, none, .ok), pool.put r) := by
  cases v <;>
    simp [RuntimeProviderJS.BeforeReq, RuntimeProviderJS.BeforeReqInvoke,
      RuntimeJS.GetCallback, hcb, RuntimeJS.InvokeFunction]

/-- Witness for C5: the script returns a string, yet the result is
`(nil, nil, OK)`. -/
theorem claim_C5_beforeReq_nilReq_witness :
    RuntimeProviderJS.BeforeReq testBridge testPool (.ok 0) testCallbacks
        "testid" none (.returns (some (.str "override")))
      = ((none, none, .ok), testPool.put 0) :=
  claim_C5_beforeReq_nilReq testBridge testPool 0 testCallbacks "testid" 2
    (some (.str "override")) (by decide)

/-- Claim C6: a step of a `Get` caller whose context is already done at
the first `select` either wins the race for an idle instance (removing
the head of the idle queue), or returns the cancellation error — and on
that outcome the counter is not incremented, no instance is
constructed, and the idle queue is untouched. -/
theorem claim_C6_get_cancelled (t : Nat) (c c' : PoolState)
    (hs : Step t c c') (h : c.threads.get? t = some ⟨.start, true⟩) :
    (∃ i rest, c.idle = i :: rest ∧ c'.idle = rest ∧
      c'.threads = c.threads.set t ⟨.gotIdle i, true⟩ ∧
      c'.counter = c.counter ∧ c'.nextInst = c.nextInst) ∨
    (c'.threads = c.threads.set t ⟨.cancelled, true⟩ ∧
      c'.idle = c.idle ∧ c'.counter = c.counter ∧
      c'.nextInst = c.nextInst) := by
  cases hs with
  | spawn c =>
    rw [List.get?_eq_none.mpr (Nat.le_refl c.threads.length)] at h
    exact absurd h (by simp)
  | cancelCtx t c pc h' =>
    have hd := h'.symm.trans h
    simp at hd
  | startIdle t c d i rest h' hq =>
    left
    have hd := h'.symm.trans h
    simp only [Option.some.injEq, GetThread.mk.injEq] at hd
    obtain ⟨-, hd2⟩ := hd
    subst hd2
    exact ⟨i, rest, hq, rfl, rfl, rfl, rfl⟩
  | startCancel t c h' =>
    right
    exact ⟨rfl, rfl, rfl, rfl⟩
  | startDefault t c h' hq =>
    have hd := h'.symm.trans h
    simp at hd
  | checkFull t c d h' hcnt =>
    have hd := h'.symm.trans h
    simp at hd
  | checkAvail t c d h' hcnt =>
    have hd := h'.symm.trans h
    simp at hd
  | incOk t c d h' hcnt =>
    have hd := h'.symm.trans h
    simp at hd
  | incFail t c d h' hcnt =>
    have hd := h'.symm.trans h
    simp at hd
  | waitIdle t c d i rest h' hq =>
    have hd := h'.symm.trans h
    simp at hd
  | waitCancel t c h' =>
    have hd := h'.symm.trans h
    simp at hd
  | putRet t c pc d i h' hi =>
    have hd := h'.symm.trans h
    simp only [Option.some.injEq, GetThread.mk.injEq] at hd
    obtain ⟨hd1, -⟩ := hd
    subst hd1
    simp [GetPC.heldInst] at hi

/-- A pool with one cancelled-context caller at its first select and an
idle instance available, for the C6 witness. -/
def cancelPool : PoolState where
  maxCount := 2
  counter := 1
  idle := [5]
  nextInst := 1
  threads := [⟨.start, true⟩]

/-- The state after the cancellation branch fires, for the C6
witness. -/
def cancelPoolAfter : PoolState where
  maxCount := 2
  counter := 1
  idle := [5]
  nextInst := 1
  threads := [⟨.cancelled, true⟩]

/-- Witness for C6: the caller takes the cancellation branch and the
pool is untouched. -/
theorem claim_C6_get_cancelled_witness :
    (∃ i rest, cancelPool.idle = i :: rest ∧ cancelPoolAfter.idle = rest ∧
      cancelPoolAfter.threads = cancelPool.threads.set 0 ⟨.gotIdle i, true⟩ ∧
      cancelPoolAfter.counter = cancelPool.counter ∧
      cancelPoolAfter.nextInst = cancelPool.nextInst) ∨
    (cancelPoolAfter.threads = cancelPool.threads.set 0 ⟨.cancelled, true⟩ ∧
      cancelPoolAfter.idle = cancelPool.idle ∧
      cancelPoolAfter.counter = cancelPool.counter ∧
      cancelPoolAfter.nextInst = cancelPool.nextInst) :=
  claim_C6_get_cancelled 0 cancelPool cancelPoolAfter
    (Step.startCancel 0 cancelPool rfl) rfl

/-- Claim C7: `Put` never blocks — a holding thread can always complete
its release in one step; below capacity the instance is appended to the
idle queue, at capacity it is discarded; in both cases every other
component of the pool state — in particular the allocation counter —
is left unchanged, so a discarded instance never gives its slot back. -/
theorem claim_C7_put_nonblocking :
    (∀ (maxCount : Nat) (idle : List Nat) (r : Nat),
      idle.length < maxCount →
      RuntimeProviderJS.Put maxCount idle r = idle ++ [r]) ∧
    (∀ (maxCount : Nat) (idle : List Nat) (r : Nat),
      maxCount ≤ idle.length →
      RuntimeProviderJS.Put maxCount idle r = idle) ∧
    (∀ (c : PoolState) (t : Nat) (pc : GetPC) (d : Bool) (i : Nat),
      c.threads.get? t = some ⟨pc, d⟩ → pc.heldInst = some i →
      ∃ c', Step t c c' ∧ c'.counter = c.counter ∧
        c'.nextInst = c.nextInst ∧ c'.maxCount = c.maxCount ∧
        c'.idle = RuntimeProviderJS.Put c.maxCount c.idle i ∧
        c'.threads = c.threads.set t ⟨.released, d⟩) := by
  refine ⟨?_, ?_, ?_⟩
  · intro mx idle r hlt
    simp [RuntimeProviderJS.Put, hlt]
  · intro mx idle r hge
    simp [RuntimeProviderJS.Put, Nat.not_lt.mpr hge]
  · intro c t pc d i h hi
    exact ⟨_, Step.putRet t c pc d i h hi, rfl, rfl, rfl, rfl, rfl⟩

/-- A pool with one thread holding a freshly constructed instance, for
the C7 witness. -/
def holdPool : PoolState where
  maxCount := 2
  counter := 1
  idle := []
  nextInst := 1
  threads := [⟨.gotNew 0, false⟩]

/-- Witness for C7: a below-capacity enqueue, an at-capacity discard,
and an enabled release step that leaves the counter unchanged. -/
theorem claim_C7_put_nonblocking_witness :
    RuntimeProviderJS.Put 2 [9] 3 = [9, 3] ∧
    RuntimeProviderJS.Put 1 [9] 3 = [9] ∧
    (∃ c', Step 0 holdPool c' ∧ c'.counter = holdPool.counter ∧
      c'.nextInst = holdPool.nextInst ∧ c'.maxCount = holdPool.maxCount ∧
      c'.idle = RuntimeProviderJS.Put holdPool.maxCount holdPool.idle 0 ∧
      c'.threads = holdPool.threads.set 0 ⟨.released, false⟩) :=
  ⟨claim_C7_put_nonblocking.1 2 [9] 3 (by decide),
   claim_C7_put_nonblocking.2.1 1 [9] 3 (by decide),
   claim_C7_put_nonblocking.2.2 holdPool 0 (.gotNew 0) false 0 rfl rfl⟩

